import Mathlib

/-!
Shallow embedding of the decision core of `src/models/reddit_bot.py`
(class `RedditBot`): the policy filter, product matcher, persona pick,
comment composer, submission gate and the `monitor_subreddits` cycle
orchestrator, together with the daily-counter reset and the credential
initialisers.

Modelling conventions:
* Python strings are Lean `String`s; `str.lower()` is `pyLower` (per-character
  lowercasing, identical on the ASCII data the program manipulates) and the
  Python substring test `needle in hay` is `pyContains hay needle`.
* Wall-clock time (`time.time()`) is an integer number of seconds; the
  float comparison `(now - created)/3600 > max_hours` is the equivalent
  integer comparison `now - created > max_hours * 3600`.
* Randomness (`random.choice`) is an explicit pick index reduced modulo
  the population size, so every reachable draw corresponds to some index.
* External effects (Reddit fetch/reply, OpenAI call) are oracle values
  of type `Except Unit _` describing the outcome the capability would
  produce if invoked; Python exceptions that the source lets escape are
  `Except.error` results.
* The rejection strings built by `_filter_post` are modelled structurally
  by `FilterReason`: each constructor carries exactly the data the
  corresponding Python f-string interpolates, so reasons determine (and
  are determined by) the source's message for that rule.
* Dictionaries (`self.products`, `self.personas`, `self.comment_templates`)
  are association lists in insertion order, matching Python 3.7+ dict
  iteration order; keys are unique as dict keys are.
-/

/-- A Reddit submission as read by the bot (`post.score`, `post.created_utc`,
`post.title`, `post.selftext`, `post.over_18`). -/
structure Post where
  id : String
  title : String
  selftext : String
  score : Int
  created_utc : Int
  over_18 : Bool
  deriving DecidableEq, Repr

/-- A catalog product (`self.products` values). -/
structure Product where
  name : String
  description : String
  url : String
  keywords : List String
  deriving DecidableEq, Repr

/-- A persona (`self.personas` values). -/
structure Persona where
  name : String
  tone : String
  style : String
  deriving DecidableEq, Repr

/-- Structural form of the rejection strings produced by `_filter_post`:
`scoreTooLow s m` is `"Score trop bas: {s} < {m}"`, `tooOld a m` is
`"Publication trop ancienne: {a/3600:.1f}h > {m}h"` (we carry the age in
seconds), `forbiddenKeyword kw` is `"Contient un mot-clé interdit: {kw}"`
and `nsfw` is `"Publication marquée NSFW"`. -/
inductive FilterReason where
  | scoreTooLow (score min_score : Int)
  | tooOld (ageSeconds : Int) (maxHours : Int)
  | forbiddenKeyword (kw : String)
  | nsfw
  deriving DecidableEq, Repr

/-- The dict `{"passed": ..., "reason": ...}` returned by `_filter_post`. -/
structure FilterResult where
  passed : Bool
  reason : Option FilterReason
  deriving DecidableEq, Repr

/-- The mutable attributes of the `RedditBot` instance that the cycle logic
reads or writes.  `redditConfigured` stands for `self.reddit is not None`
and `openaiConfigured` for `self.openai_client and self.openai_model`. -/
structure BotState where
  subreddits : List String
  active_hours_start : Int
  active_hours_end : Int
  min_post_score : Int
  max_post_age_hours : Int
  comment_rate_limit_seconds : Nat
  forbidden_keywords : List String
  excluded_languages : List String
  active : Bool
  dry_run : Bool
  comments_posted_today : Nat
  total_comments_posted : Nat
  last_comment_time : Int
  posts_analyzed : Nat
  posts_filtered : Nat
  posts_selected : Nat
  redditConfigured : Bool
  openaiConfigured : Bool
  products : List (String × Product)
  personas : List (String × Persona)
  comment_templates : List (String × String)
  deriving DecidableEq, Repr

/-- Does `needle` occur as a contiguous substring of `hay` (character lists)?
This is the Python `needle in hay` test. -/
def lcContains (hay needle : List Char) : Bool :=
  match hay with
  | [] => needle.isEmpty
  | _ :: t => needle.isPrefixOf hay || lcContains t needle

/-- Python `needle in hay` on strings. -/
def pyContains (hay needle : String) : Bool :=
  lcContains hay.toList needle.toList

/-- Python `s.lower()`: lowercase every character (written over the character
list so that it evaluates inside the kernel; identical to `String.toLower`). -/
def pyLower (s : String) : String :=
  ⟨s.toList.map Char.toLower⟩

/-- Python `s.strip()`: drop leading and trailing whitespace. -/
def pyStrip (s : String) : String :=
  ⟨((s.toList.dropWhile Char.isWhitespace).reverse.dropWhile Char.isWhitespace).reverse⟩

/-- The text `f"{post.title} {post.selftext}".lower()` that the filter and the
matcher both scan (lines 614 and 648 of the source). -/
def postContent (p : Post) : String :=
  pyLower (p.title ++ " " ++ p.selftext)

/-- Model of `_filter_post` (reddit_bot.py lines 582-630): score check, age check,
forbidden-keyword scan, NSFW check, each returning immediately on failure. -/
def filter_post (bot : BotState) (now : Int) (post : Post) : FilterResult :=
  if post.score < bot.min_post_score then
    { passed := false, reason := some (.scoreTooLow post.score bot.min_post_score) }
  else if now - post.created_utc > bot.max_post_age_hours * 3600 then
    { passed := false, reason := some (.tooOld (now - post.created_utc) bot.max_post_age_hours) }
  else
    match bot.forbidden_keywords.find? (fun kw => pyContains (postContent post) (pyLower kw)) with
    | some kw => { passed := false, reason := some (.forbiddenKeyword kw) }
    | none =>
      if post.over_18 then
        { passed := false, reason := some .nsfw }
      else
        { passed := true, reason := none }

/-- Specification-side reading of filter rule 1 (`§4.1` item 1):
score below threshold. -/
def checkScore (bot : BotState) (p : Post) : Option FilterReason :=
  if p.score < bot.min_post_score then some (.scoreTooLow p.score bot.min_post_score) else none

/-- Specification-side reading of filter rule 2 (`§4.1` item 2):
post older than `max_post_age_hours`. -/
def checkAge (bot : BotState) (now : Int) (p : Post) : Option FilterReason :=
  if now - p.created_utc > bot.max_post_age_hours * 3600 then
    some (.tooOld (now - p.created_utc) bot.max_post_age_hours)
  else none

/-- Specification-side reading of filter rule 3 (`§4.1` item 3): first
forbidden keyword occurring case-insensitively in title+body. -/
def checkForbidden (bot : BotState) (p : Post) : Option FilterReason :=
  (bot.forbidden_keywords.find? (fun kw => pyContains (postContent p) (pyLower kw))).map
    .forbiddenKeyword

/-- Specification-side reading of filter rule 4 (`§4.1` item 4): adult flag. -/
def checkAdult (p : Post) : Option FilterReason :=
  if p.over_18 then some .nsfw else none

/-- The first failing check in the spec's fixed order
score-too-low, too-old, forbidden-keyword, adult-flagged. -/
def firstFailing (bot : BotState) (now : Int) (p : Post) : Option FilterReason :=
  checkScore bot p <|> checkAge bot now p <|> checkForbidden bot p <|> checkAdult p

/-- The score `_select_product_for_post` computes for one product: one point
per keyword whose lowercase form occurs in the post content (lines 654-664). -/
def product_score (content : String) (p : Product) : Nat :=
  (p.keywords.filter (fun kw => pyContains content (pyLower kw))).length

/-- The `product_scores` dict of `_select_product_for_post`: products keep
insertion order and only strictly positive scores are recorded (line 666). -/
def scoredCandidates (products : List (String × Product)) (content : String) :
    List (String × Product × Nat) :=
  (products.map (fun e => (e.1, e.2, product_score content e.2))).filter
    (fun t => 0 < t.2.2)

/-- One comparison step of Python `max`: a later entry replaces the current
best only when its score is strictly greater. -/
def pickBest (best y : String × Product × Nat) : String × Product × Nat :=
  if best.2.2 < y.2.2 then y else best

/-- Python `max(product_scores, key=product_scores.get)` over the candidates in
iteration order: the first entry attaining the maximal score. -/
def maxByFirst (l : List (String × Product × Nat)) : Option (String × Product × Nat) :=
  match l with
  | [] => none
  | x :: xs => some (xs.foldl pickBest x)

/-- The dict `{"id": ..., "score": ..., **product}` built at lines 676-680. -/
structure SelectedProduct where
  id : String
  score : Nat
  product : Product
  deriving DecidableEq, Repr

/-- Model of `_select_product_for_post` (lines 632-685): empty catalog gives `None`;
otherwise score every product against the lowercased title+body, keep the
positive scores, and return the first product attaining the maximum, or
`None` when no product scores above zero. -/
def select_product_for_post (products : List (String × Product)) (post : Post) :
    Option SelectedProduct :=
  if products.isEmpty then none
  else
    match maxByFirst (scoredCandidates products (postContent post)) with
    | none => none
    | some (pid, prod, s) => some { id := pid, score := s, product := prod }

/-- The dict returned by `_select_persona`: the default persona has no `id`
key, a stored persona is returned with its `id` added (lines 694-709). -/
structure SelectedPersona where
  id : Option String
  name : String
  tone : String
  style : String
  deriving DecidableEq, Repr

/-- Model of `_select_persona` (lines 687-709): with no personas, the fixed default;
otherwise `random.choice` over the stored personas, modelled by the pick
index modulo the population size. -/
def select_persona (personas : List (String × Persona)) (pick : Nat) : SelectedPersona :=
  match personas with
  | [] => { id := none, name := "Assistant", tone := "helpful", style := "informative" }
  | x :: xs =>
    let entry := (x :: xs).getD (pick % (x :: xs).length) x
    { id := some entry.1, name := entry.2.name, tone := entry.2.tone, style := entry.2.style }

/-- One step of Python `str.format` field substitution, processing the
template character by character.  `field = none` means we are outside a
replacement field; `field = some f` means we are inside `\x7b...\x7d`
accumulating the field name `f`.  Only the keyword arguments
`product_name` and `product_url` are supplied (lines 733-736), so any
other field name raises `KeyError(name)`, modelled as `.error name`;
a stray unmatched brace raises `ValueError`, modelled as
`.error "ValueError"`.  Doubled braces are the literal-brace escape. -/
def formatFields (name url : String) : List Char → Option String → String → Except String String
  | [], none, acc => .ok acc
  | [], some _, _ => .error "ValueError"
  | c :: rest, none, acc =>
    if c = '\x7b' then formatFields name url rest (some "") acc
    else if c = '\x7d' then
      match rest with
      | d :: rest2 => if d = '\x7d' then formatFields name url rest2 none (acc.push c)
                      else .error "ValueError"
      | [] => .error "ValueError"
    else formatFields name url rest none (acc.push c)
  | c :: rest, some f, acc =>
    if c = '\x7d' then
      if f = "product_name" then formatFields name url rest none (acc ++ name)
      else if f = "product_url" then formatFields name url rest none (acc ++ url)
      else .error f
    else if c = '\x7b' ∧ f = "" then formatFields name url rest none (acc.push c)
    else formatFields name url rest (some (f.push c)) acc

/-- Python `template.format(product_name=name, product_url=url)`. -/
def pyFormat (template name url : String) : Except String String :=
  formatFields name url template.toList none ""

/-- Model of `random.choice(list(self.comment_templates.keys()))` followed by the
lookup and the `format` call (lines 730-736 and 793-798): an empty template
dict raises `IndexError`, a bad replacement field raises through `format`. -/
def templateFill (templates : List (String × String)) (pick : Nat)
    (product : SelectedProduct) : Except String String :=
  match templates with
  | [] => .error "IndexError"
  | t :: ts =>
    let entry := (t :: ts).getD (pick % (t :: ts).length) t
    pyFormat entry.2 product.product.name product.product.url

/-- Model of `_generate_comment` (lines 711-800).  Here `openaiAvailable` is
`self.openai_model and self.openai_client`; `genResult` is the outcome the
OpenAI chat-completion call would produce if made (`.error` for a raised
exception); `pick1` drives the template draw inside the `try` block and
`pick2` the draw inside the `except` handler.  A failure of the first
template fill (only possible in the no-OpenAI branch) is caught by the
enclosing handler, which draws a fresh template; a failure inside the
handler itself propagates to the caller. -/
def generate_comment (openaiAvailable : Bool) (genResult : Except Unit String)
    (templates : List (String × String)) (pick1 pick2 : Nat)
    (product : SelectedProduct) : Except String String :=
  if !openaiAvailable then
    match templateFill templates pick1 product with
    | .ok c => .ok c
    | .error _ => templateFill templates pick2 product
  else
    match genResult with
    | .ok text => .ok (pyStrip text)
    | .error _ => templateFill templates pick2 product

/-- Is an `Except` outcome a success? -/
def exceptOk {ε α : Type} (e : Except ε α) : Bool :=
  match e with
  | .ok _ => true
  | .error _ => false

/-- Model of `_post_comment` (lines 802-835): in dry-run mode return `True` without
touching the network; without a Reddit client return `False`; otherwise
`post.reply(comment)` — `True` on success, `False` when it raises (the
`except` at line 832 swallows every exception). -/
def post_comment (dry_run redditConfigured : Bool) (replyOutcome : Except Unit Unit) : Bool :=
  if dry_run then true
  else if !redditConfigured then false
  else
    match replyOutcome with
    | .ok _ => true
    | .error _ => false

/-- The default comment templates seeded at lines 520-530, in insertion
order. -/
def defaultTemplates : List (String × String) :=
  [("default", "I found a solution to this problem! {product_name} really helped me. You can find it here: {product_url}"),
   ("question", "Have you tried {product_name}? It's exactly what you need for this case. Here's the link: {product_url}"),
   ("experience", "I had the same problem and {product_name} solved it. I highly recommend it: {product_url}"),
   ("solution", "I solved my problem with {product_name}. It's really a powerful tool: {product_url}"),
   ("recommendation", "I strongly recommend {product_name} to solve this problem: {product_url}"),
   ("testimonial", "I was very satisfied with using {product_name}. It's exactly what I needed: {product_url}"),
   ("comparison", "I compared {product_name} with other products and it's the best: {product_url}"),
   ("alternative", "If you can't use {product_name}, you can try {alternative_product_name}: {alternative_product_url}")]

/-- The stats dict built at lines 848-855 (the `"timestamp"` entry, a purely
presentational ISO string, is not modelled). -/
structure CycleStats where
  subreddits_checked : Nat
  posts_analyzed : Nat
  posts_filtered : Nat
  posts_selected : Nat
  comments_posted : Nat
  deriving DecidableEq, Repr

/-- The stats dict with all counters zero. -/
def zeroStats : CycleStats :=
  { subreddits_checked := 0, posts_analyzed := 0, posts_filtered := 0
    posts_selected := 0, comments_posted := 0 }

/-- The value `monitor_subreddits` returns: either the early error dict
`{"error": msg, "comments_posted": n}` of line 846 or the stats dict. -/
inductive CycleResult where
  | errorResult (msg : String) (comments_posted : Nat)
  | stats (s : CycleStats)
  deriving DecidableEq, Repr

/-- The per-post random draws and capability outcomes consumed while
processing one post: the persona draw, the OpenAI outcome, the template
draw in the `try` block, the template draw in the `except` handler, and
the outcome `post.reply` would produce. -/
structure PostOracles where
  personaPick : Nat
  genResult : Except Unit String
  tmplPick1 : Nat
  tmplPick2 : Nat
  replyOutcome : Except Unit Unit

/-- The environment of one cycle: per-subreddit fetch outcomes
(`subreddit.new(limit=20)`, indexed by position in `self.subreddits`) and
per-post oracles (indexed by subreddit position and post position). -/
structure Env where
  fetch : Nat → Except Unit (List Post)
  ors : Nat → Nat → PostOracles

/-- The state threaded through one cycle: the bot instance, the local stats
dict, and the wall clock in seconds (advanced only by `time.sleep`). -/
structure MonState where
  bot : BotState
  stats : CycleStats
  clock : Int
  deriving Repr

/-- Lines 880-881: `stats["posts_analyzed"] += 1; self.posts_analyzed += 1`. -/
def incAnalyzed (ms : MonState) : MonState :=
  { ms with
    stats := { ms.stats with posts_analyzed := ms.stats.posts_analyzed + 1 }
    bot := { ms.bot with posts_analyzed := ms.bot.posts_analyzed + 1 } }

/-- Lines 909-910: `stats["posts_filtered"] += 1; self.posts_filtered += 1`. -/
def incFiltered (ms : MonState) : MonState :=
  { ms with
    stats := { ms.stats with posts_filtered := ms.stats.posts_filtered + 1 }
    bot := { ms.bot with posts_filtered := ms.bot.posts_filtered + 1 } }

/-- Lines 922-923: `stats["posts_selected"] += 1; self.posts_selected += 1`. -/
def incSelected (ms : MonState) : MonState :=
  { ms with
    stats := { ms.stats with posts_selected := ms.stats.posts_selected + 1 }
    bot := { ms.bot with posts_selected := ms.bot.posts_selected + 1 } }

/-- Line 875: `stats["subreddits_checked"] += 1`. -/
def incChecked (ms : MonState) : MonState :=
  { ms with
    stats := { ms.stats with subreddits_checked := ms.stats.subreddits_checked + 1 } }

/-- Lines 934-937: on a successful submission, bump the cycle counter, the
day counter and the lifetime counter, and record `int(time.time())`. -/
def recordComment (ms : MonState) : MonState :=
  { ms with
    stats := { ms.stats with comments_posted := ms.stats.comments_posted + 1 }
    bot := { ms.bot with
      comments_posted_today := ms.bot.comments_posted_today + 1
      total_comments_posted := ms.bot.total_comments_posted + 1
      last_comment_time := ms.clock } }

/-- Line 941: `time.sleep(self.comment_rate_limit_seconds)`. -/
def sleepPacing (ms : MonState) : MonState :=
  { ms with clock := ms.clock + (ms.bot.comment_rate_limit_seconds : Int) }

/-- The body of the per-post loop (lines 879-941).  The returned flag is
`true` when the body raised (only `_generate_comment` can: a bad template
in the `except` handler, see `generate_comment`), in which case the
exception aborts the remaining posts of this subreddit and is caught by
the per-subreddit handler at line 942.  Between selection and generation
the source draws a persona with `_select_persona` (line 926,
`select_persona (incSelected (incAnalyzed ms)).bot.personas ors.personaPick`
here); the draw never fails and the persona only feeds the unmodelled
prompt text, so it does not influence any modelled output. -/
def processPost (ors : PostOracles) (p : Post) (ms : MonState) : MonState × Bool :=
  if !(filter_post (incAnalyzed ms).bot (incAnalyzed ms).clock p).passed then
    (incFiltered (incAnalyzed ms), false)
  else
    match select_product_for_post (incAnalyzed ms).bot.products p with
    | none => (incAnalyzed ms, false)
    | some prod =>
      match generate_comment (incSelected (incAnalyzed ms)).bot.openaiConfigured ors.genResult
          (incSelected (incAnalyzed ms)).bot.comment_templates ors.tmplPick1 ors.tmplPick2 prod with
      | .error _ => (incSelected (incAnalyzed ms), true)
      | .ok _comment =>
        if post_comment (incSelected (incAnalyzed ms)).bot.dry_run
            (incSelected (incAnalyzed ms)).bot.redditConfigured ors.replyOutcome then
          (sleepPacing (recordComment (incSelected (incAnalyzed ms))), false)
        else (incSelected (incAnalyzed ms), false)

/-- The posts of one subreddit, in returned order; a raised exception stops
this subreddit's remaining posts. -/
def processPosts (getOrs : Nat → PostOracles) (posts : List Post) (ms : MonState) : MonState :=
  match posts with
  | [] => ms
  | p :: rest =>
    let r := processPost (getOrs 0) p ms
    if r.2 then r.1 else processPosts (fun j => getOrs (j + 1)) rest r.1

/-- The per-subreddit loop (lines 871-944): count the subreddit as checked,
then fetch; a fetch failure (or an exception escaping a post) is caught by
the per-subreddit handler and the loop continues with the next subreddit. -/
def processSubreddits (env : Env) (names : List String) (ms : MonState) : MonState :=
  match names with
  | [] => ms
  | _ :: rest =>
    let ms1 := incChecked ms
    let ms2 :=
      match env.fetch 0 with
      | .error _ => ms1
      | .ok posts => processPosts (env.ors 0) posts ms1
    processSubreddits { fetch := fun i => env.fetch (i + 1), ors := fun i => env.ors (i + 1) }
      rest ms2

/-- Model of `_is_active_hour` (lines 577-580): half-open window on the current hour. -/
def is_active_hour (bot : BotState) (currentHour : Int) : Bool :=
  decide (bot.active_hours_start ≤ currentHour ∧ currentHour < bot.active_hours_end)

/-- Model of `monitor_subreddits` (lines 837-951): a missing Reddit client returns the
error dict before anything else; an inactive bot or an out-of-window hour
returns the freshly-zeroed stats dict; otherwise the full per-subreddit
pipeline runs.  Returns the final bot state, the final clock and the
returned summary. -/
def monitor_subreddits (bot : BotState) (currentHour : Int) (clock : Int) (env : Env) :
    BotState × Int × CycleResult :=
  if !bot.redditConfigured then
    (bot, clock, .errorResult "Client Reddit non initialise" 0)
  else if !bot.active then
    (bot, clock, .stats zeroStats)
  else if !is_active_hour bot currentHour then
    (bot, clock, .stats zeroStats)
  else
    let ms := processSubreddits env bot.subreddits { bot := bot, stats := zeroStats, clock := clock }
    (ms.bot, ms.clock, .stats ms.stats)

/-- Model of `_reset_daily_counter` (lines 552-558): zero the four day-scoped
counters; the lifetime counter is untouched. -/
def reset_daily_counter (bot : BotState) : BotState :=
  { bot with
    comments_posted_today := 0
    posts_analyzed := 0
    posts_filtered := 0
    posts_selected := 0 }

/-- Model of `_init_reddit_client` (lines 212-265) reduced to its decision: the client
is created only when all four of client id, secret, username and password
are present (after the store-then-environment fallback), and survives only
if the `user.me()` connection check does not raise; any other outcome
leaves `self.reddit = None`. -/
def init_reddit_client (client_id client_secret username password : Option String)
    (connectOk : Bool) : Bool :=
  client_id.isSome && client_secret.isSome && username.isSome && password.isSome && connectOk

/-- Model of `_init_openai_client` (lines 267-297) reduced to its decision: the client
exists only when an API key is present (after the store-then-environment
fallback) and construction does not raise. -/
def init_openai_client (api_key : Option String) (constructOk : Bool) : Bool :=
  api_key.isSome && constructOk

/-- The default per-post oracles used by concrete runs: every capability
fails and every random draw is the first element. -/
def defaultOracles : PostOracles :=
  { personaPick := 0, genResult := .error (), tmplPick1 := 0, tmplPick2 := 0
    replyOutcome := .error () }

/-- An environment in which every fetch fails. -/
def envEmpty : Env :=
  { fetch := fun _ => .error (), ors := fun _ _ => defaultOracles }

/-- A concrete product-selection result used to evaluate the composer. -/
def sampleProduct : SelectedProduct :=
  { id := "product1", score := 1
    product := { name := "@qi-coil-mini", description := "Compact frequency device"
                 url := "https://qilifestore.com/collections/qi-coils/products/qi-coil-mini"
                 keywords := ["sleep issues"] } }

/-- A bot carrying the `__init__` defaults (lines 50-74) whose Reddit
credentials were missing, so `self.reddit is None`, and which was never
started (`self.active = False`). -/
def botNoReddit : BotState :=
  { subreddits := ["python", "programming", "technology"]
    active_hours_start := 9, active_hours_end := 22
    min_post_score := 5, max_post_age_hours := 12
    comment_rate_limit_seconds := 300
    forbidden_keywords := ["nsfw", "politics", "religion"]
    excluded_languages := ["arabic", "russian"]
    active := false, dry_run := true
    comments_posted_today := 0, total_comments_posted := 0, last_comment_time := 0
    posts_analyzed := 0, posts_filtered := 0, posts_selected := 0
    redditConfigured := false, openaiConfigured := false
    products := [], personas := [], comment_templates := defaultTemplates }

/-- The one-product demo catalog of spec §8's end-to-end scenario. -/
def demoProducts : List (String × Product) :=
  [("product1",
    { name := "Qi Coil Mini", description := "Compact frequency device"
      url := "https://qilifestore.com/qi-coil-mini", keywords := ["sleep"] })]

/-- The demo post of spec §8: score 10, one hour old, clean title. -/
def demoPost : Post :=
  { id := "p1", title := "need a sleep fix", selftext := "", score := 10
    created_utc := 996400, over_18 := false }

/-- A configured, active, dry-run bot watching one demo subreddit. -/
def demoBot : BotState :=
  { subreddits := ["demo"]
    active_hours_start := 9, active_hours_end := 22
    min_post_score := 5, max_post_age_hours := 12
    comment_rate_limit_seconds := 300
    forbidden_keywords := [], excluded_languages := []
    active := true, dry_run := true
    comments_posted_today := 0, total_comments_posted := 0, last_comment_time := 0
    posts_analyzed := 0, posts_filtered := 0, posts_selected := 0
    redditConfigured := true, openaiConfigured := false
    products := demoProducts
    personas := [("helpful", { name := "Health Enthusiast"
                               tone := "Enthusiastic, supportive, personal"
                               style := "informative" })]
    comment_templates := defaultTemplates }

/-- An environment whose first subreddit returns exactly the demo post and
whose submissions succeed. -/
def demoEnv : Env :=
  { fetch := fun i => if i = 0 then .ok [demoPost] else .error ()
    ors := fun _ _ =>
      { personaPick := 0, genResult := .error (), tmplPick1 := 0, tmplPick2 := 0
        replyOutcome := .ok () } }

/-- The bookkeeping relation a cycle step respects: the pacing configuration
and the OpenAI flag are untouched, and some common number `d` of successful
submissions has been added to the cycle counter, the day counter and the
lifetime counter while the clock advanced by exactly `d` pacing delays. -/
def Paced (ms ms2 : MonState) : Prop :=
  ms2.bot.comment_rate_limit_seconds = ms.bot.comment_rate_limit_seconds ∧
  ms2.bot.openaiConfigured = ms.bot.openaiConfigured ∧
  ∃ d : Nat,
    ms2.stats.comments_posted = ms.stats.comments_posted + d ∧
    ms2.bot.comments_posted_today = ms.bot.comments_posted_today + d ∧
    ms2.bot.total_comments_posted = ms.bot.total_comments_posted + d ∧
    ms2.clock = ms.clock + ((d * ms.bot.comment_rate_limit_seconds : Nat) : Int)

/-- Two per-post oracle bundles that agree on everything except the OpenAI
outcome. -/
def orsNoGenEq (a b : PostOracles) : Prop :=
  a.personaPick = b.personaPick ∧ a.tmplPick1 = b.tmplPick1 ∧
  a.tmplPick2 = b.tmplPick2 ∧ a.replyOutcome = b.replyOutcome

/-- A clean-scoring post whose title mentions a forbidden keyword. -/
def nsfwPost : Post :=
  { id := "p2", title := "Totally NSFW content here", selftext := "more text", score := 10
    created_utc := 996400, over_18 := false }

/-- The stats summary of the demo cycle: one subreddit checked, one post
analyzed, none filtered, one selected, one comment posted. -/
def demoStats : CycleStats :=
  { subreddits_checked := 1, posts_analyzed := 1, posts_filtered := 0
    posts_selected := 1, comments_posted := 1 }

/-- Variant of `demoEnv` with a different OpenAI oracle (the call would succeed). -/
def demoEnvAltGen : Env :=
  { fetch := demoEnv.fetch
    ors := fun i j =>
      { personaPick := (demoEnv.ors i j).personaPick
        genResult := .ok "generated text"
        tmplPick1 := (demoEnv.ors i j).tmplPick1
        tmplPick2 := (demoEnv.ors i j).tmplPick2
        replyOutcome := (demoEnv.ors i j).replyOutcome } }

/-- The cycle state at the moment the demo post is processed. -/
def demoMs : MonState :=
  { bot := demoBot, stats := zeroStats, clock := 1000000 }

/-- The matcher's result on the demo post: the single catalog product,
matched with score 1 via the keyword `"sleep"`. -/
def demoSelected : SelectedProduct :=
  { id := "product1", score := 1
    product := { name := "Qi Coil Mini", description := "Compact frequency device"
                 url := "https://qilifestore.com/qi-coil-mini", keywords := ["sleep"] } }

/-- The comment the template composer produces for the demo post (template
draw 0 picks the `"default"` template). -/
def demoComment : String :=
  "I found a solution to this problem! Qi Coil Mini really helped me. You can find it here: https://qilifestore.com/qi-coil-mini"

/-! ### Theorems -/

/-- C1: For every post and configuration, the Policy Filter evaluates its four
checks in the fixed order score-too-low, too-old, forbidden-keyword,
adult-flagged; the first failing check short-circuits the rest, the returned
verdict has `passed = false` with a reason identifying exactly that
first-failing rule, and if no check fails the verdict has `passed = true`
with no reason. -/
theorem filter_post_first_failing_rule (bot : BotState) (now : Int) (p : Post) :
    filter_post bot now p =
      match firstFailing bot now p with
      | some r => { passed := false, reason := some r }
      | none => { passed := true, reason := none } := by
  simp only [filter_post, firstFailing, checkScore, checkAge, checkForbidden, checkAdult]
  by_cases h1 : p.score < bot.min_post_score
  · simp [h1, Option.orElse]
  · by_cases h2 : now - p.created_utc > bot.max_post_age_hours * 3600
    · simp [h1, h2, Option.orElse]
    · cases hf : bot.forbidden_keywords.find?
          (fun kw => pyContains (postContent p) (pyLower kw)) with
      | some kw => simp [h1, h2, hf, Option.orElse]
      | none =>
        by_cases h4 : p.over_18 = true
        · simp [h1, h2, hf, h4, Option.orElse]
        · simp [h1, h2, hf, h4, Option.orElse]

lemma pickBest_cases (b y : String × Product × Nat) : pickBest b y = b ∨ pickBest b y = y := by
  unfold pickBest
  split
  · exact Or.inr rfl
  · exact Or.inl rfl

lemma le_pickBest_left (b y : String × Product × Nat) : b.2.2 ≤ (pickBest b y).2.2 := by
  unfold pickBest
  split <;> omega

lemma le_pickBest_right (b y : String × Product × Nat) : y.2.2 ≤ (pickBest b y).2.2 := by
  unfold pickBest
  split <;> omega

lemma foldl_pickBest_mem (xs : List (String × Product × Nat)) :
    ∀ x, xs.foldl pickBest x ∈ x :: xs := by
  induction xs with
  | nil => intro x; simp
  | cons y ys ih =>
    intro x
    have h := ih (pickBest x y)
    rcases pickBest_cases x y with hc | hc <;>
      simp only [List.foldl_cons, hc] at h ⊢ <;>
      rcases List.mem_cons.mp h with h1 | h1 <;>
      simp [h1, List.mem_cons]

lemma foldl_pickBest_le (xs : List (String × Product × Nat)) :
    ∀ x c, c ∈ x :: xs → c.2.2 ≤ (xs.foldl pickBest x).2.2 := by
  induction xs with
  | nil =>
    intro x c hc
    simp at hc
    simp [hc]
  | cons y ys ih =>
    intro x c hc
    simp only [List.foldl_cons]
    have hbest : (pickBest x y).2.2 ≤ ((ys.foldl pickBest (pickBest x y))).2.2 :=
      ih (pickBest x y) (pickBest x y) (List.mem_cons_self _ _)
    rcases List.mem_cons.mp hc with h | h
    · subst h
      exact le_trans (le_pickBest_left c y) hbest
    · rcases List.mem_cons.mp h with h2 | h2
      · subst h2
        exact le_trans (le_pickBest_right x c) hbest
      · exact ih (pickBest x y) c (List.mem_cons.mpr (Or.inr h2))

lemma select_product_none_iff (products : List (String × Product)) (p : Post) :
    select_product_for_post products p = none
      ↔ scoredCandidates products (postContent p) = [] := by
  unfold select_product_for_post
  by_cases hp : products.isEmpty = true
  · have hnil : products = [] := List.isEmpty_iff.mp hp
    subst hnil
    simp [scoredCandidates]
  · rw [if_neg hp]
    cases hc : scoredCandidates products (postContent p) with
    | nil => simp [maxByFirst]
    | cons x xs => simp [maxByFirst]

lemma select_product_some_spec (products : List (String × Product)) (p : Post)
    (sel : SelectedProduct) (h : select_product_for_post products p = some sel) :
    0 < sel.score ∧
    (sel.id, sel.product, sel.score) ∈ scoredCandidates products (postContent p) ∧
    ∀ c ∈ scoredCandidates products (postContent p), c.2.2 ≤ sel.score := by
  unfold select_product_for_post at h
  by_cases hp : products.isEmpty = true
  · rw [if_pos hp] at h
    exact absurd h (by simp)
  · rw [if_neg hp] at h
    cases hc : scoredCandidates products (postContent p) with
    | nil => rw [hc] at h; simp [maxByFirst] at h
    | cons x xs =>
      rw [hc] at h
      simp only [maxByFirst, Option.some.injEq] at h
      have hsel : sel = { id := (xs.foldl pickBest x).1, score := (xs.foldl pickBest x).2.2
                          product := (xs.foldl pickBest x).2.1 } := h.symm
      have htuple : (sel.id, sel.product, sel.score) = xs.foldl pickBest x := by
        rw [hsel]
      refine ⟨?_, ?_, ?_⟩
      · have hmemc : xs.foldl pickBest x ∈ scoredCandidates products (postContent p) := by
          rw [hc]; exact foldl_pickBest_mem xs x
        unfold scoredCandidates at hmemc
        have hfilter := List.of_mem_filter hmemc
        simp only [hsel]
        simpa using hfilter
      · rw [htuple]
        exact foldl_pickBest_mem xs x
      · intro c hcmem
        have := foldl_pickBest_le xs x c hcmem
        simpa [hsel] using this

lemma select_product_strict_max (products : List (String × Product)) (p : Post)
    (e : String × Product × Nat) (he : e ∈ scoredCandidates products (postContent p))
    (hstrict : ∀ c ∈ scoredCandidates products (postContent p), c ≠ e → c.2.2 < e.2.2) :
    select_product_for_post products p = some { id := e.1, score := e.2.2, product := e.2.1 } := by
  cases hsel : select_product_for_post products p with
  | none =>
    rw [select_product_none_iff] at hsel
    rw [hsel] at he
    exact absurd he (List.not_mem_nil e)
  | some sel =>
    obtain ⟨hpos, hmem, hmax⟩ := select_product_some_spec products p sel hsel
    by_cases heq : (sel.id, sel.product, sel.score) = e
    · have h1 : sel.id = e.1 := by rw [← heq]
      have h2 : sel.product = e.2.1 := by rw [← heq]
      have h3 : sel.score = e.2.2 := by rw [← heq]
      cases sel
      simp_all
    · have hlt : sel.score < e.2.2 := by
        have := hstrict (sel.id, sel.product, sel.score) hmem heq
        simpa using this
      have hge : e.2.2 ≤ sel.score := hmax e he
      omega

lemma processPost_no_product (ors : PostOracles) (p : Post) (ms : MonState)
    (hpass : (filter_post ms.bot ms.clock p).passed = true)
    (hnone : select_product_for_post ms.bot.products p = none) :
    processPost ors p ms = (incAnalyzed ms, false) := by
  unfold processPost
  have h1 : filter_post (incAnalyzed ms).bot (incAnalyzed ms).clock p
      = filter_post ms.bot ms.clock p := rfl
  have h2 : (incAnalyzed ms).bot.products = ms.bot.products := rfl
  simp only [h1, h2, hpass, hnone, Bool.not_true, Bool.false_eq_true, if_false]

/-- C2: For every post and catalog, the Matcher gives each product a score
equal to the count of that product's keywords occurring case-insensitively as
substrings of the post's title+body; products with score 0 are never
selectable; among products with score > 0 the one with the strictly highest
score is selected; and if no product scores > 0 the result is no-product and
the orchestrator skips the post entirely, generating no comment and not
incrementing `posts_selected`. -/
theorem matcher_keyword_scoring (products : List (String × Product)) (p : Post) :
    (∀ prod : Product, product_score (postContent p) prod
        = prod.keywords.countP (fun kw => pyContains (postContent p) (pyLower kw))) ∧
    (select_product_for_post products p = none
        ↔ scoredCandidates products (postContent p) = []) ∧
    (∀ sel, select_product_for_post products p = some sel →
        0 < sel.score ∧
        (sel.id, sel.product, sel.score) ∈ scoredCandidates products (postContent p) ∧
        ∀ c ∈ scoredCandidates products (postContent p), c.2.2 ≤ sel.score) ∧
    (∀ e ∈ scoredCandidates products (postContent p),
        (∀ c ∈ scoredCandidates products (postContent p), c ≠ e → c.2.2 < e.2.2) →
        select_product_for_post products p
          = some { id := e.1, score := e.2.2, product := e.2.1 }) ∧
    (∀ ors ms, (filter_post ms.bot ms.clock p).passed = true →
        select_product_for_post ms.bot.products p = none →
        processPost ors p ms = (incAnalyzed ms, false)) := by
  refine ⟨?_, select_product_none_iff products p,
    fun sel h => select_product_some_spec products p sel h,
    fun e he hs => select_product_strict_max products p e he hs,
    fun ors ms h1 h2 => processPost_no_product ors p ms h1 h2⟩
  intro prod
  simp [product_score, List.countP_eq_length_filter]

/-- C9: For every post and configuration, the forbidden-keyword check matches
each entry of `forbidden_keywords` case-insensitively as a substring of the
concatenation of the post's title and body text; a match anywhere rejects the
post and the rejection reason names the matched keyword, regardless of where
in title or body the match occurs. -/
theorem forbidden_keyword_rejects_anywhere (bot : BotState) (now : Int) (p : Post)
    (kw : String)
    (hscore : ¬ p.score < bot.min_post_score)
    (hage : ¬ now - p.created_utc > bot.max_post_age_hours * 3600)
    (hmem : kw ∈ bot.forbidden_keywords)
    (hmatch : pyContains (postContent p) (pyLower kw) = true) :
    ∃ kw2 ∈ bot.forbidden_keywords,
      pyContains (postContent p) (pyLower kw2) = true ∧
      filter_post bot now p
        = { passed := false, reason := some (.forbiddenKeyword kw2) } := by
  have hex : (bot.forbidden_keywords.find?
      (fun k => pyContains (postContent p) (pyLower k))).isSome := by
    rw [List.find?_isSome]
    exact ⟨kw, hmem, hmatch⟩
  obtain ⟨kw2, hf⟩ := Option.isSome_iff_exists.mp hex
  have hkw2 : pyContains (postContent p) (pyLower kw2) = true := by
    have := List.find?_some hf
    simpa using this
  refine ⟨kw2, List.mem_of_find?_eq_some hf, hkw2, ?_⟩
  simp [filter_post, hscore, hage, hf]

/-- Witness for C9: the default forbidden keyword `"nsfw"` occurring
(capitalised) in the demo post's title rejects it, and the reason names the
keyword. -/
theorem forbidden_keyword_rejects_anywhere_witness :
    ∃ kw2 ∈ botNoReddit.forbidden_keywords,
      pyContains (postContent nsfwPost) (pyLower kw2) = true ∧
      filter_post botNoReddit 1000000 nsfwPost
        = { passed := false, reason := some (.forbiddenKeyword kw2) } :=
  forbidden_keyword_rejects_anywhere botNoReddit 1000000 nsfwPost "nsfw"
    (by decide) (by decide) (by decide) (by decide)

/-- C10: Persona selection is total: with an empty persona set it returns the
fixed default persona (name `Assistant`, tone `helpful`, style `informative`)
without failing, and with a non-empty set it returns one of the stored
personas (whichever the random draw picks) augmented with its id; it never
raises, and — the embedding takes no post argument — its result cannot depend
on the post content. -/
theorem select_persona_total (personas : List (String × Persona)) (pick : Nat) :
    (personas = [] → select_persona personas pick
        = { id := none, name := "Assistant", tone := "helpful", style := "informative" }) ∧
    (personas ≠ [] → ∃ e ∈ personas, select_persona personas pick
        = { id := some e.1, name := e.2.name, tone := e.2.tone, style := e.2.style }) := by
  cases personas with
  | nil =>
    refine ⟨fun _ => rfl, fun h => absurd rfl h⟩
  | cons x xs =>
    refine ⟨fun h => absurd h (by simp), fun _ => ?_⟩
    have hlt : pick % (x :: xs).length < (x :: xs).length :=
      Nat.mod_lt _ (by simp)
    refine ⟨(x :: xs).getD (pick % (x :: xs).length) x, ?_, rfl⟩
    rw [List.getD_eq_getElem?_getD, List.getElem?_eq_getElem hlt]
    exact List.getElem_mem hlt

/-- Witness for C10: drawing from the demo bot's singleton persona set yields
the stored persona with its id, and drawing from an empty set yields the
default. -/
theorem select_persona_total_witness :
    select_persona demoBot.personas 5
      = { id := some "helpful", name := "Health Enthusiast"
          tone := "Enthusiastic, supportive, personal", style := "informative" } ∧
    select_persona [] 5
      = { id := none, name := "Assistant", tone := "helpful", style := "informative" } := by
  constructor
  · obtain ⟨e, hmem, heq⟩ := (select_persona_total demoBot.personas 5).2 (by decide)
    simp only [demoBot, List.mem_singleton] at hmem
    subst hmem
    exact heq
  · exact (select_persona_total [] 5).1 rfl

/-- C4: For every post and comment text, the Submission Gate returns a boolean
and lets no exception escape (it is a total `Bool`-valued function): if
`dry_run` is set it returns `true` without invoking any network capability
(the result does not depend on the reply oracle); otherwise if the forum
client is not configured it returns `false`; otherwise it invokes the
submission capability and returns `true` on success and `false` on any
error. -/
theorem post_comment_gate (d r : Bool) (reply : Except Unit Unit) :
    post_comment d r reply = (d || (r && exceptOk reply)) ∧
    (∀ reply2 : Except Unit Unit, post_comment true r reply2 = true) := by
  constructor
  · unfold post_comment exceptOk
    cases d <;> cases r <;> cases reply <;> simp
  · intro reply2
    rfl

/-- C3 (code bug): with the seeded default template set, composing in
template mode can raise.  Here OpenAI is unconfigured, the random draw picks
the `"alternative"` template both in the `try` block and in the `except`
handler, and `str.format` raises `KeyError('alternative_product_name')`
because only `product_name` and `product_url` are supplied — the exception
escapes `_generate_comment`, contradicting the never-raise contract. -/
theorem generate_comment_alternative_template_raises :
    generate_comment false (.error ()) defaultTemplates 7 7 sampleProduct
      = .error "alternative_product_name" := rfl

lemma paced_refl (ms : MonState) : Paced ms ms :=
  ⟨rfl, rfl, 0, by omega, by omega, by omega, by simp⟩

lemma paced_trans {a b c : MonState} (h1 : Paced a b) (h2 : Paced b c) : Paced a c := by
  obtain ⟨r1, o1, d1, s1, t1, l1, c1⟩ := h1
  obtain ⟨r2, o2, d2, s2, t2, l2, c2⟩ := h2
  refine ⟨r2.trans r1, o2.trans o1, d1 + d2, by omega, by omega, by omega, ?_⟩
  rw [c2, c1, r1]
  push_cast
  ring

lemma processPost_paced (ors : PostOracles) (p : Post) (ms : MonState) :
    Paced ms (processPost ors p ms).1 := by
  have hzero : ∀ ms2 : MonState,
      ms2.bot.comment_rate_limit_seconds = ms.bot.comment_rate_limit_seconds →
      ms2.bot.openaiConfigured = ms.bot.openaiConfigured →
      ms2.stats.comments_posted = ms.stats.comments_posted →
      ms2.bot.comments_posted_today = ms.bot.comments_posted_today →
      ms2.bot.total_comments_posted = ms.bot.total_comments_posted →
      ms2.clock = ms.clock → Paced ms ms2 := by
    intro ms2 h1 h2 h3 h4 h5 h6
    exact ⟨h1, h2, 0, by omega, by omega, by omega, by simp [h6]⟩
  unfold processPost
  split
  · exact hzero _ rfl rfl rfl rfl rfl rfl
  · split
    · exact hzero _ rfl rfl rfl rfl rfl rfl
    · split
      · exact hzero _ rfl rfl rfl rfl rfl rfl
      · split
        · refine ⟨rfl, rfl, 1, ?_, ?_, ?_, ?_⟩ <;>
            simp [sleepPacing, recordComment, incSelected, incAnalyzed]
        · exact hzero _ rfl rfl rfl rfl rfl rfl

lemma processPosts_paced (posts : List Post) :
    ∀ (getOrs : Nat → PostOracles) (ms : MonState),
      Paced ms (processPosts getOrs posts ms) := by
  induction posts with
  | nil => intro getOrs ms; exact paced_refl ms
  | cons p rest ih =>
    intro getOrs ms
    simp only [processPosts]
    by_cases hr : (processPost (getOrs 0) p ms).2 = true
    · simp only [hr, if_true]
      exact processPost_paced (getOrs 0) p ms
    · simp only [hr, if_false, Bool.false_eq_true]
      exact paced_trans (processPost_paced (getOrs 0) p ms)
        (ih (fun j => getOrs (j + 1)) (processPost (getOrs 0) p ms).1)

lemma incChecked_paced (ms : MonState) : Paced ms (incChecked ms) :=
  ⟨rfl, rfl, 0, by simp [incChecked], by simp [incChecked], by simp [incChecked],
    by simp [incChecked]⟩

lemma processSubreddits_paced (names : List String) :
    ∀ (env : Env) (ms : MonState), Paced ms (processSubreddits env names ms) := by
  induction names with
  | nil => intro env ms; exact paced_refl ms
  | cons n rest ih =>
    intro env ms
    simp only [processSubreddits]
    cases hf : env.fetch 0 with
    | error e =>
      exact paced_trans (incChecked_paced ms) (ih _ (incChecked ms))
    | ok posts =>
      exact paced_trans
        (paced_trans (incChecked_paced ms) (processPosts_paced posts (env.ors 0) (incChecked ms)))
        (ih _ _)

lemma monitor_no_client (bot : BotState) (h clock : Int) (env : Env)
    (hr : bot.redditConfigured = false) :
    monitor_subreddits bot h clock env
      = (bot, clock, .errorResult "Client Reddit non initialise" 0) := by
  simp [monitor_subreddits, hr]

lemma monitor_counter_delta (bot : BotState) (h clock : Int) (env : Env) :
    ∃ d : Nat,
      (monitor_subreddits bot h clock env).1.comments_posted_today
          = bot.comments_posted_today + d ∧
      (monitor_subreddits bot h clock env).1.total_comments_posted
          = bot.total_comments_posted + d := by
  unfold monitor_subreddits
  by_cases hr : bot.redditConfigured = true
  · by_cases ha : bot.active = true
    · by_cases hh : is_active_hour bot h = true
      · simp only [hr, ha, hh, Bool.not_true, Bool.false_eq_true, if_false]
        obtain ⟨_, _, d, _, ht, hl, _⟩ :=
          processSubreddits_paced bot.subreddits env
            { bot := bot, stats := zeroStats, clock := clock }
        exact ⟨d, ht, hl⟩
      · simp only [Bool.not_eq_true] at hh
        simp [hr, ha, hh]
    · simp only [Bool.not_eq_true] at ha
      simp [hr, ha]
  · simp only [Bool.not_eq_true] at hr
    simp [hr]

lemma monitor_stats_spec (bot : BotState) (h clock : Int) (env : Env) (s : CycleStats)
    (hs : (monitor_subreddits bot h clock env).2.2 = .stats s) :
    (monitor_subreddits bot h clock env).2.1
        = clock + ((s.comments_posted * bot.comment_rate_limit_seconds : Nat) : Int) ∧
    (monitor_subreddits bot h clock env).1.comments_posted_today
        = bot.comments_posted_today + s.comments_posted ∧
    (monitor_subreddits bot h clock env).1.total_comments_posted
        = bot.total_comments_posted + s.comments_posted := by
  unfold monitor_subreddits at hs ⊢
  by_cases hr : bot.redditConfigured = false
  · simp [hr] at hs
  · by_cases ha : bot.active = false
    · simp only [hr, if_false, ha, if_true] at hs ⊢
      have hz : s = zeroStats := by
        simpa using hs.symm
      subst hz
      simp [zeroStats]
    · by_cases hh : is_active_hour bot h = false
      · simp only [hr, if_false, ha, hh, if_true] at hs ⊢
        have hz : s = zeroStats := by
          simpa using hs.symm
        subst hz
        simp [zeroStats]
      · simp only [hr, ha, hh, if_false] at hs ⊢
        obtain ⟨hrate, _, d, hst, ht, hl, hc⟩ :=
          processSubreddits_paced bot.subreddits env
            { bot := bot, stats := zeroStats, clock := clock }
        have hz : (processSubreddits env bot.subreddits
            { bot := bot, stats := zeroStats, clock := clock }).stats = s := by
          simpa using hs
        have hd : d = s.comments_posted := by
          rw [← hz, hst]
          simp [zeroStats]
        subst hd
        exact ⟨by simpa using hc, ht, hl⟩

lemma processPost_filtered (ors : PostOracles) (p : Post) (ms : MonState)
    (hfail : (filter_post ms.bot ms.clock p).passed = false) :
    processPost ors p ms = (incFiltered (incAnalyzed ms), false) := by
  have h1 : filter_post (incAnalyzed ms).bot (incAnalyzed ms).clock p
      = filter_post ms.bot ms.clock p := rfl
  unfold processPost
  rw [h1, hfail]
  simp

lemma processPost_success (ors : PostOracles) (p : Post) (ms : MonState)
    (prod : SelectedProduct) (c : String)
    (hpass : (filter_post ms.bot ms.clock p).passed = true)
    (hsel : select_product_for_post ms.bot.products p = some prod)
    (hgen : generate_comment ms.bot.openaiConfigured ors.genResult ms.bot.comment_templates
        ors.tmplPick1 ors.tmplPick2 prod = .ok c)
    (hpost : post_comment ms.bot.dry_run ms.bot.redditConfigured ors.replyOutcome = true) :
    processPost ors p ms = (sleepPacing (recordComment (incSelected (incAnalyzed ms))), false) := by
  have h1 : filter_post (incAnalyzed ms).bot (incAnalyzed ms).clock p
      = filter_post ms.bot ms.clock p := rfl
  have h2 : (incAnalyzed ms).bot.products = ms.bot.products := rfl
  have h3 : generate_comment (incSelected (incAnalyzed ms)).bot.openaiConfigured ors.genResult
      (incSelected (incAnalyzed ms)).bot.comment_templates ors.tmplPick1 ors.tmplPick2 prod
      = generate_comment ms.bot.openaiConfigured ors.genResult ms.bot.comment_templates
        ors.tmplPick1 ors.tmplPick2 prod := rfl
  have h4 : post_comment (incSelected (incAnalyzed ms)).bot.dry_run
      (incSelected (incAnalyzed ms)).bot.redditConfigured ors.replyOutcome
      = post_comment ms.bot.dry_run ms.bot.redditConfigured ors.replyOutcome := rfl
  unfold processPost
  rw [h1, hpass, h2, hsel]
  simp [h3, hgen, h4, hpost]

lemma processPost_failed_submit (ors : PostOracles) (p : Post) (ms : MonState)
    (prod : SelectedProduct) (c : String)
    (hpass : (filter_post ms.bot ms.clock p).passed = true)
    (hsel : select_product_for_post ms.bot.products p = some prod)
    (hgen : generate_comment ms.bot.openaiConfigured ors.genResult ms.bot.comment_templates
        ors.tmplPick1 ors.tmplPick2 prod = .ok c)
    (hpost : post_comment ms.bot.dry_run ms.bot.redditConfigured ors.replyOutcome = false) :
    processPost ors p ms = (incSelected (incAnalyzed ms), false) := by
  have h1 : filter_post (incAnalyzed ms).bot (incAnalyzed ms).clock p
      = filter_post ms.bot ms.clock p := rfl
  have h2 : (incAnalyzed ms).bot.products = ms.bot.products := rfl
  have h3 : generate_comment (incSelected (incAnalyzed ms)).bot.openaiConfigured ors.genResult
      (incSelected (incAnalyzed ms)).bot.comment_templates ors.tmplPick1 ors.tmplPick2 prod
      = generate_comment ms.bot.openaiConfigured ors.genResult ms.bot.comment_templates
        ors.tmplPick1 ors.tmplPick2 prod := rfl
  have h4 : post_comment (incSelected (incAnalyzed ms)).bot.dry_run
      (incSelected (incAnalyzed ms)).bot.redditConfigured ors.replyOutcome
      = post_comment ms.bot.dry_run ms.bot.redditConfigured ors.replyOutcome := rfl
  unfold processPost
  rw [h1, hpass, h2, hsel]
  simp [h3, hgen, h4, hpost]

lemma generate_comment_no_openai_congr (g1 g2 : Except Unit String)
    (templates : List (String × String)) (p1 p2 : Nat) (prod : SelectedProduct) :
    generate_comment false g1 templates p1 p2 prod
      = generate_comment false g2 templates p1 p2 prod := rfl

lemma processPost_noGen (a b : PostOracles) (p : Post) (ms : MonState)
    (ho : ms.bot.openaiConfigured = false) (he : orsNoGenEq a b) :
    processPost a p ms = processPost b p ms := by
  obtain ⟨_h1, h2, h3, h4⟩ := he
  have ho2 : (incSelected (incAnalyzed ms)).bot.openaiConfigured = false := ho
  unfold processPost
  rw [ho2, h2, h3, h4]
  have hg : ∀ prod : SelectedProduct,
      generate_comment false a.genResult (incSelected (incAnalyzed ms)).bot.comment_templates
          b.tmplPick1 b.tmplPick2 prod
        = generate_comment false b.genResult (incSelected (incAnalyzed ms)).bot.comment_templates
          b.tmplPick1 b.tmplPick2 prod :=
    fun _ => rfl
  simp only [hg]

lemma processPosts_noGen (posts : List Post) :
    ∀ (a b : Nat → PostOracles) (ms : MonState),
      ms.bot.openaiConfigured = false →
      (∀ j, orsNoGenEq (a j) (b j)) →
      processPosts a posts ms = processPosts b posts ms := by
  induction posts with
  | nil => intro a b ms _ _; rfl
  | cons p rest ih =>
    intro a b ms ho he
    simp only [processPosts]
    rw [processPost_noGen (a 0) (b 0) p ms ho (he 0)]
    by_cases hr : (processPost (b 0) p ms).2 = true
    · simp [hr]
    · simp only [hr, if_false, Bool.false_eq_true]
      have ho2 : (processPost (b 0) p ms).1.bot.openaiConfigured = false := by
        have := (processPost_paced (b 0) p ms).2.1
        rw [this, ho]
      exact ih _ _ _ ho2 (fun j => he (j + 1))

lemma processSubreddits_noGen (names : List String) :
    ∀ (e1 e2 : Env) (ms : MonState),
      ms.bot.openaiConfigured = false →
      (∀ i, e1.fetch i = e2.fetch i) →
      (∀ i j, orsNoGenEq (e1.ors i j) (e2.ors i j)) →
      processSubreddits e1 names ms = processSubreddits e2 names ms := by
  induction names with
  | nil => intro e1 e2 ms _ _ _; rfl
  | cons n rest ih =>
    intro e1 e2 ms ho hf he
    simp only [processSubreddits]
    rw [hf 0]
    cases hfr : e2.fetch 0 with
    | error e =>
      exact ih _ _ _ (by
          have := (incChecked_paced ms).2.1
          rw [this, ho])
        (fun i => hf (i + 1)) (fun i j => he (i + 1) j)
    | ok posts =>
      have hoc : (incChecked ms).bot.openaiConfigured = false := by
        have := (incChecked_paced ms).2.1
        rw [this, ho]
      show processSubreddits { fetch := fun i => e1.fetch (i + 1), ors := fun i => e1.ors (i + 1) }
            rest (processPosts (e1.ors 0) posts (incChecked ms))
          = processSubreddits { fetch := fun i => e2.fetch (i + 1), ors := fun i => e2.ors (i + 1) }
            rest (processPosts (e2.ors 0) posts (incChecked ms))
      rw [processPosts_noGen posts (e1.ors 0) (e2.ors 0) (incChecked ms) hoc (he 0)]
      have hop : (processPosts (e2.ors 0) posts (incChecked ms)).bot.openaiConfigured = false := by
        have := (processPosts_paced posts (e2.ors 0) (incChecked ms)).2.1
        rw [this, hoc]
      exact ih _ _ _ hop (fun i => hf (i + 1)) (fun i j => he (i + 1) j)

/-- C5 (counterexample): the claim predicts that an inactive bot's cycle
invocation returns the zero-stats summary in every state, but when the
Reddit client is unconfigured `monitor_subreddits` returns the early error
dict of line 846 — which is not the five-counter zero-stats summary — even
though the bot is inactive. -/
theorem monitor_inactive_without_client_cex :
    monitor_subreddits botNoReddit 12 1000000 envEmpty
      = (botNoReddit, 1000000, .errorResult "Client Reddit non initialise" 0) ∧
    CycleResult.errorResult "Client Reddit non initialise" 0 ≠ CycleResult.stats zeroStats := by
  exact ⟨rfl, by decide⟩

/-- C5 (amended): provided the forum client is configured, an invocation with
the bot inactive, or active but with the current hour outside the half-open
window `[active_hours_start, active_hours_end)`, is a no-op: it returns the
zero-stats summary and leaves the bot state and the clock unchanged. -/
theorem monitor_gated_cycle_noop (bot : BotState) (h clock : Int) (env : Env)
    (hr : bot.redditConfigured = true)
    (hgate : bot.active = false ∨ is_active_hour bot h = false) :
    monitor_subreddits bot h clock env = (bot, clock, .stats zeroStats) := by
  unfold monitor_subreddits
  rcases hgate with hg | hg
  · simp [hr, hg]
  · by_cases ha : bot.active = false
    · simp [hr, ha]
    · simp only [Bool.not_eq_false] at ha
      simp [hr, ha, hg]

/-- Witness for the amended C5: a configured but stopped demo bot returns the
zero-stats summary unchanged. -/
theorem monitor_gated_cycle_noop_witness :
    monitor_subreddits { demoBot with active := false } 12 1000000 envEmpty
      = ({ demoBot with active := false }, 1000000, .stats zeroStats) :=
  monitor_gated_cycle_noop { demoBot with active := false } 12 1000000 envEmpty rfl (Or.inl rfl)

/-- C6: If credentials for a capability (forum or generative) are missing at
initialization, that capability is disabled/nulled, and a subsequent cycle
invocation continues in degraded mode rather than aborting: with no forum
client the cycle returns the limited-mode error summary (state untouched,
no exception — the model is a total function), and with no generative client
the cycle runs identically for every possible generative-capability outcome
(it never consults it, composing from templates instead). -/
theorem missing_credentials_degrade_not_abort :
    (∀ (cid cs un pw : Option String) (conn : Bool),
        cid.isNone = true ∨ cs.isNone = true ∨ un.isNone = true ∨ pw.isNone = true →
        init_reddit_client cid cs un pw conn = false) ∧
    (∀ conn : Bool, init_openai_client none conn = false) ∧
    (∀ (bot : BotState) (h clock : Int) (env : Env), bot.redditConfigured = false →
        monitor_subreddits bot h clock env
          = (bot, clock, .errorResult "Client Reddit non initialise" 0)) ∧
    (∀ (bot : BotState) (h clock : Int) (e1 e2 : Env), bot.openaiConfigured = false →
        (∀ i, e1.fetch i = e2.fetch i) →
        (∀ i j, orsNoGenEq (e1.ors i j) (e2.ors i j)) →
        monitor_subreddits bot h clock e1 = monitor_subreddits bot h clock e2) := by
  refine ⟨?_, ?_, ?_, ?_⟩
  · intro cid cs un pw conn hmiss
    unfold init_reddit_client
    rcases hmiss with hm | hm | hm | hm <;>
      simp [Option.isNone_iff_eq_none.mp hm]
  · intro conn
    rfl
  · intro bot h clock env hr
    exact monitor_no_client bot h clock env hr
  · intro bot h clock e1 e2 ho hf he
    unfold monitor_subreddits
    by_cases hr : bot.redditConfigured = false
    · simp [hr]
    · by_cases ha : bot.active = false
      · simp [hr, ha]
      · by_cases hh : is_active_hour bot h = false
        · simp [hr, ha, hh]
        · simp only [hr, ha, hh, if_false]
          rw [processSubreddits_noGen bot.subreddits e1 e2
            { bot := bot, stats := zeroStats, clock := clock } ho hf he]

/-- Witness for C6: a missing client id yields no Reddit client; a missing
API key yields no OpenAI client; the credential-less default bot's cycle
returns the error summary unchanged; and the OpenAI-less demo bot's cycle is
unaffected by swapping the generative oracle. -/
theorem missing_credentials_degrade_not_abort_witness :
    init_reddit_client none (some "secret") (some "user") (some "pw") true = false ∧
    init_openai_client none true = false ∧
    monitor_subreddits botNoReddit 12 1000000 envEmpty
      = (botNoReddit, 1000000, .errorResult "Client Reddit non initialise" 0) ∧
    monitor_subreddits demoBot 12 1000000 demoEnv
      = monitor_subreddits demoBot 12 1000000 demoEnvAltGen := by
  refine ⟨?_, ?_, ?_, ?_⟩
  · exact missing_credentials_degrade_not_abort.1 none (some "secret") (some "user") (some "pw")
      true (Or.inl rfl)
  · exact missing_credentials_degrade_not_abort.2.1 true
  · exact missing_credentials_degrade_not_abort.2.2.1 botNoReddit 12 1000000 envEmpty rfl
  · exact missing_credentials_degrade_not_abort.2.2.2 demoBot 12 1000000 demoEnv demoEnvAltGen
      rfl (fun _ => rfl) (fun _ _ => ⟨rfl, rfl, rfl, rfl⟩)

/-- C7: After each successful submission the orchestrator increments both the
day-scoped and lifetime comment counters, updates the last-comment timestamp
(`recordComment` sets it to the current clock) and then blocks the cycle for
`comment_rate_limit_seconds` (`sleepPacing`); no delay follows a filter
rejection or a failed submission (the no-product case is
`processPost_no_product`); consequently a cycle whose summary reports `N`
posted comments ends with its clock advanced by exactly
`N * comment_rate_limit_seconds` — in particular at least that much
wall-clock time elapsed. -/
theorem pacing_after_each_successful_submission (bot : BotState) (h clock : Int) (env : Env) :
    (∀ s, (monitor_subreddits bot h clock env).2.2 = .stats s →
        (monitor_subreddits bot h clock env).2.1
            = clock + ((s.comments_posted * bot.comment_rate_limit_seconds : Nat) : Int) ∧
        (monitor_subreddits bot h clock env).1.comments_posted_today
            = bot.comments_posted_today + s.comments_posted ∧
        (monitor_subreddits bot h clock env).1.total_comments_posted
            = bot.total_comments_posted + s.comments_posted) ∧
    (∀ (ors : PostOracles) (p : Post) (ms : MonState) (prod : SelectedProduct) (c : String),
        (filter_post ms.bot ms.clock p).passed = true →
        select_product_for_post ms.bot.products p = some prod →
        generate_comment ms.bot.openaiConfigured ors.genResult ms.bot.comment_templates
            ors.tmplPick1 ors.tmplPick2 prod = .ok c →
        post_comment ms.bot.dry_run ms.bot.redditConfigured ors.replyOutcome = true →
        processPost ors p ms
          = (sleepPacing (recordComment (incSelected (incAnalyzed ms))), false)) ∧
    (∀ (ors : PostOracles) (p : Post) (ms : MonState),
        (filter_post ms.bot ms.clock p).passed = false →
        processPost ors p ms = (incFiltered (incAnalyzed ms), false)) ∧
    (∀ (ors : PostOracles) (p : Post) (ms : MonState) (prod : SelectedProduct) (c : String),
        (filter_post ms.bot ms.clock p).passed = true →
        select_product_for_post ms.bot.products p = some prod →
        generate_comment ms.bot.openaiConfigured ors.genResult ms.bot.comment_templates
            ors.tmplPick1 ors.tmplPick2 prod = .ok c →
        post_comment ms.bot.dry_run ms.bot.redditConfigured ors.replyOutcome = false →
        processPost ors p ms = (incSelected (incAnalyzed ms), false)) :=
  ⟨fun s hs => monitor_stats_spec bot h clock env s hs,
   fun ors p ms prod c h1 h2 h3 h4 => processPost_success ors p ms prod c h1 h2 h3 h4,
   fun ors p ms h1 => processPost_filtered ors p ms h1,
   fun ors p ms prod c h1 h2 h3 h4 => processPost_failed_submit ors p ms prod c h1 h2 h3 h4⟩

/-- Witness for C7: the demo cycle posts one comment; its clock ends exactly
one pacing delay later with both counters incremented once, and the demo
post's successful processing step is the record-then-sleep update. -/
theorem pacing_after_each_successful_submission_witness :
    ((monitor_subreddits demoBot 12 1000000 demoEnv).2.1
        = 1000000
            + ((demoStats.comments_posted * demoBot.comment_rate_limit_seconds : Nat) : Int) ∧
      (monitor_subreddits demoBot 12 1000000 demoEnv).1.comments_posted_today
        = demoBot.comments_posted_today + demoStats.comments_posted ∧
      (monitor_subreddits demoBot 12 1000000 demoEnv).1.total_comments_posted
        = demoBot.total_comments_posted + demoStats.comments_posted) ∧
    processPost (demoEnv.ors 0 0) demoPost demoMs
      = (sleepPacing (recordComment (incSelected (incAnalyzed demoMs))), false) := by
  constructor
  · exact (pacing_after_each_successful_submission demoBot 12 1000000 demoEnv).1 demoStats rfl
  · exact (pacing_after_each_successful_submission demoBot 12 1000000 demoEnv).2.1
      (demoEnv.ors 0 0) demoPost demoMs demoSelected demoComment rfl rfl rfl rfl

/-- C8: In every reachable state `0 ≤ comments_posted_today ≤
total_comments_posted` (the counters are naturals, so the lower bound is
intrinsic): the cycle increments both counters together on each successful
submission, so it preserves the invariant, and the daily reset sets
`comments_posted_today` to 0 and never touches `total_comments_posted`,
re-establishing it; hence it holds before and after every cycle. -/
theorem daily_counter_invariant_preserved (bot : BotState) (h clock : Int) (env : Env)
    (hinv : bot.comments_posted_today ≤ bot.total_comments_posted) :
    (monitor_subreddits bot h clock env).1.comments_posted_today
        ≤ (monitor_subreddits bot h clock env).1.total_comments_posted ∧
    (reset_daily_counter bot).comments_posted_today = 0 ∧
    (reset_daily_counter bot).total_comments_posted = bot.total_comments_posted ∧
    (reset_daily_counter bot).comments_posted_today
        ≤ (reset_daily_counter bot).total_comments_posted := by
  obtain ⟨d, h1, h2⟩ := monitor_counter_delta bot h clock env
  exact ⟨by omega, rfl, rfl, by simp [reset_daily_counter]⟩

/-- Witness for C8: the demo cycle takes the counters from `0 ≤ 0` to `1 ≤ 1`
and the reset re-zeroes only the day counter. -/
theorem daily_counter_invariant_preserved_witness :
    (monitor_subreddits demoBot 12 1000000 demoEnv).1.comments_posted_today
        ≤ (monitor_subreddits demoBot 12 1000000 demoEnv).1.total_comments_posted ∧
    (reset_daily_counter demoBot).comments_posted_today = 0 ∧
    (reset_daily_counter demoBot).total_comments_posted = demoBot.total_comments_posted ∧
    (reset_daily_counter demoBot).comments_posted_today
        ≤ (reset_daily_counter demoBot).total_comments_posted :=
  daily_counter_invariant_preserved demoBot 12 1000000 demoEnv (by decide)

/-- Witness for C2: on the demo catalog the single product scores 1 via the
keyword `"sleep"` and is selected; on the empty catalog the demo post is
skipped with only the analyzed counters bumped. -/
theorem matcher_keyword_scoring_witness :
    product_score (postContent demoPost) demoSelected.product
        = demoSelected.product.keywords.countP
            (fun kw => pyContains (postContent demoPost) (pyLower kw)) ∧
    select_product_for_post demoProducts demoPost = some demoSelected ∧
    processPost defaultOracles demoPost
        { bot := botNoReddit, stats := zeroStats, clock := 1000000 }
      = (incAnalyzed { bot := botNoReddit, stats := zeroStats, clock := 1000000 }, false) := by
  refine ⟨(matcher_keyword_scoring demoProducts demoPost).1 demoSelected.product, ?_, ?_⟩
  · exact (matcher_keyword_scoring demoProducts demoPost).2.2.2.1
      ("product1", demoSelected.product, 1) (by decide) (by decide)
  · exact (matcher_keyword_scoring demoProducts demoPost).2.2.2.2 defaultOracles
      { bot := botNoReddit, stats := zeroStats, clock := 1000000 } rfl rfl
